import Mathlib

/-!
Verification of the query-processing pipeline and retrieval ranking/filtering
of the AI-Study-Assistant backend.

The Python sources are shallowly embedded: dictionaries become structures,
floats become rationals (`ℚ`), `dict.get` with no default becomes `Option`,
fallible stages become `Except`.  Components whose source file is not part of
the provided sources (`app/core/state.py`, `app/nodes/router.py`,
`app/nodes/intent_classifier.py`, `app/nodes/answer_generator.py`,
`app/nodes/answer_evaluator.py`, `app/nodes/question_generator.py`) are
modelled from the specification and carry a doc comment saying so.
-/

/-- The five user intents (`app/core/state.py` `Intent`, as used throughout
`document_retriever.py` and `graph.py`). -/
inductive Intent
  | answer_generation
  | answer_evaluation
  | doubt_clarification
  | question_generation
  | exam_paper_generation
deriving DecidableEq, Repr

/-- Chunk metadata as read by `DocumentRetriever` via `metadata.get(...)`:
absent keys are `none`. -/
structure Metadata where
  user_id : Option Int
  visibility : Option String
  document_type : Option String
  document_id : Option Int
deriving DecidableEq, Repr

/-- One raw hit from the vector store search
(an element of `search_results["results"]` in `document_retriever.py`). -/
structure SearchResult where
  metadata : Metadata
  document : String
  similarity : ℚ
deriving DecidableEq, Repr

/-- Shape of `RetrievedDocument` as built by
`DocumentRetriever._format_retrieved_documents`. -/
structure RetrievedDocument where
  document_id : Int
  document_type : String
  chunk_text : String
  similarity_score : ℚ
  metadata : Metadata
deriving DecidableEq, Repr

/-- Default of `Settings.SIMILARITY_THRESHOLD` (`backend_config_old.py`, 0.7). -/
def SIMILARITY_THRESHOLD : ℚ := 7 / 10

/-- Table `DocumentRetriever.RETRIEVAL_COUNTS` (with the `.get(intent, 10)` default
built in; every intent is present in the table). -/
def RETRIEVAL_COUNTS : Intent → Nat
  | .answer_generation => 10
  | .answer_evaluation => 5
  | .doubt_clarification => 8
  | .question_generation => 10
  | .exam_paper_generation => 15

/-- Table `DocumentRetriever.DOCUMENT_TYPE_PRIORITIES`. -/
def DOCUMENT_TYPE_PRIORITIES : Intent → List String
  | .answer_generation => ["marking_scheme", "notes", "question_paper"]
  | .answer_evaluation => ["marking_scheme"]
  | .doubt_clarification => ["notes", "marking_scheme"]
  | .question_generation => ["notes", "question_paper"]
  | .exam_paper_generation => ["notes", "question_paper", "marking_scheme"]

/-- Embeds `DocumentRetriever._enhance_query`. -/
def enhance_query (query : String) (intent : Intent) : String :=
  let enhancement :=
    match intent with
    | .answer_generation => "answer solution explanation"
    | .answer_evaluation => "marking scheme grading criteria"
    | .doubt_clarification => "explanation concept definition"
    | .question_generation => "questions examples problems"
    | .exam_paper_generation => "questions topics syllabus"
  (query ++ " " ++ enhancement).trim

/-- The access check of `_filter_and_rank_results`
(`metadata.get("user_id") != user_id and metadata.get("visibility") != "public"`):
`true` means the hit is skipped. -/
def access_denied (user_id : Int) (r : SearchResult) : Bool :=
  r.metadata.user_id != some user_id && r.metadata.visibility != some "public"

/-- Embeds `metadata.get("document_type", "other")`. -/
def doc_type_of (r : SearchResult) : String :=
  r.metadata.document_type.getD "other"

/-- The boosted score of one hit in `_filter_and_rank_results`:
base similarity plus `(len(type_priorities) - priority_index) * 0.1` when the
document type occurs in the intent's priority list. -/
def boosted_score (intent : Intent) (r : SearchResult) : ℚ :=
  let type_priorities := DOCUMENT_TYPE_PRIORITIES intent
  let doc_type := doc_type_of r
  if doc_type ∈ type_priorities then
    r.similarity +
      ((type_priorities.length - type_priorities.indexOf doc_type : ℕ) : ℚ) * (1 / 10)
  else
    r.similarity

/-- The scoring/filtering loop of `_filter_and_rank_results`: walk the raw
hits in search order, skip access-denied hits, boost, and keep a hit (paired
with its boosted score) exactly when the boosted score reaches the threshold. -/
def score_results (intent : Intent) (user_id : Int) (thr : ℚ)
    (results : List SearchResult) : List (SearchResult × ℚ) :=
  results.filterMap fun r =>
    if access_denied user_id r then none
    else
      let score := boosted_score intent r
      if thr ≤ score then some (r, score) else none

/-- The ordering used by `scored_results.sort(key=lambda x: x["score"], reverse=True)`:
`a` may come before `b` when `a`'s score is at least `b`'s.  A stable sort with
this relation is exactly Python's stable descending sort. -/
def score_ge (a b : SearchResult × ℚ) : Prop := b.2 ≤ a.2

instance : DecidableRel score_ge := fun a b => inferInstanceAs (Decidable (b.2 ≤ a.2))

instance : IsTotal (SearchResult × ℚ) score_ge := ⟨fun a b => (le_total b.2 a.2).imp id id⟩

instance : IsTrans (SearchResult × ℚ) score_ge := ⟨fun _ _ _ h1 h2 => le_trans h2 h1⟩

/-- Embeds `DocumentRetriever._filter_and_rank_results`: score and filter, stable-sort
by score descending, truncate to `n_results`, and drop the attached scores. -/
def filter_and_rank_results (search_results : List SearchResult) (intent : Intent)
    (user_id : Int) (n_results : Nat) (thr : ℚ) : List SearchResult :=
  if search_results.isEmpty then []
  else
    let scored_results := score_results intent user_id thr search_results
    let sorted_results := scored_results.insertionSort score_ge
    (sorted_results.take n_results).map Prod.fst

/-- Embeds `DocumentRetriever._format_retrieved_documents`. -/
def format_retrieved_documents (results : List SearchResult) : List RetrievedDocument :=
  results.map fun r =>
    { document_id := r.metadata.document_id.getD 0
      document_type := r.metadata.document_type.getD "other"
      chunk_text := r.document
      similarity_score := r.similarity
      metadata := r.metadata }

/-- Renders a rational with two decimal places, modelling Python's
`f"{x:.2f}"` on the non-negative similarity values that occur here. -/
def format_2dp (q : ℚ) : String :=
  let scaled : ℤ := round (q * 100)
  let whole := scaled / 100
  let frac := (scaled % 100).toNat
  toString whole ++ "." ++ (if frac < 10 then "0" ++ toString frac else toString frac)

/-- The grouping loop of `_build_context`: group documents by `document_type`,
preserving first-seen order of types and, within a type, document order. -/
def add_to_group (acc : List (String × List RetrievedDocument))
    (d : RetrievedDocument) : List (String × List RetrievedDocument) :=
  match acc with
  | [] => [(d.document_type, [d])]
  | (t, ds) :: rest =>
      if t = d.document_type then (t, ds ++ [d]) :: rest
      else (t, ds) :: add_to_group rest d

/-- Computes `by_type` of `_build_context` as an ordered association list. -/
def group_by_type (documents : List RetrievedDocument) :
    List (String × List RetrievedDocument) :=
  documents.foldl add_to_group []

/-- The per-chunk lines of `_build_context` for one document-type group
(1-based chunk numbering, original similarity at two decimals). -/
def chunk_parts (docs : List RetrievedDocument) : List String :=
  (docs.enumFrom 1).map fun p =>
    "[Chunk " ++ toString p.1 ++ " | Similarity: " ++ format_2dp p.2.similarity_score
      ++ "]" ++ "\n" ++ p.2.chunk_text ++ "\n"

/-- Embeds `DocumentRetriever._build_context`. -/
def build_context (documents : List RetrievedDocument) : String :=
  if documents.isEmpty then ""
  else
    let by_type := group_by_type documents
    let context_parts := by_type.foldl
      (fun acc g =>
        acc ++ ("\n--- " ++ (g.1.toUpper.replace "_" " ") ++ " ---\n") :: chunk_parts g.2)
      []
    String.intercalate "\n" context_parts

/-- Processing status of a pipeline run (`app/core/state.py`
`ProcessingStatus`, as used by `graph.py`). -/
inductive ProcessingStatus
  | pending
  | in_progress
  | completed
  | failed
deriving DecidableEq, Repr

/-- The LangGraph state dictionary threaded through the pipeline.
The defining file `app/core/state.py` is not part of the provided sources;
the fields are those read and written by `document_retriever.py`,
`doubt_resolver.py`, `graph.py` and `chat.py` (`task_data` is the `task_data`
dictionary, flattened to the two keys the doubt resolver writes). -/
structure GraphState where
  query : String
  user_id : Int
  conversation_id : Option Int
  intent : Option Intent
  retrieved_documents : List RetrievedDocument
  context : String
  document_types_available : List String
  retrieval_query : String
  nodes_visited : List String
  generated_answer : Option String
  final_response : Option String
  task_data_source_type : Option String
  task_data_has_relevant_notes : Option Bool
  status : ProcessingStatus
  processing_time : ℚ
deriving DecidableEq, Repr

/-- Modelled from the spec: `create_initial_state` (`app/core/state.py`, not
among the provided sources).  A fresh per-query accumulator: empty trace,
no intent, no outputs, `PENDING` status. -/
def create_initial_state (user_id : Int) (query : String)
    (conversation_id : Option Int) : GraphState :=
  { query := query
    user_id := user_id
    conversation_id := conversation_id
    intent := none
    retrieved_documents := []
    context := ""
    document_types_available := []
    retrieval_query := ""
    nodes_visited := []
    generated_answer := none
    final_response := none
    task_data_source_type := none
    task_data_has_relevant_notes := none
    status := .pending
    processing_time := 0 }

/-- Embeds `DocumentRetriever.retrieve`.  The external vector-store search is passed
in as its outcome: `.ok hits` for a successful search over the enhanced query,
`.error msg` when the search capability raised.  The `except` branch of the
source recovers: empty results, empty context, stage still traced. -/
def retrieve (search_outcome : Except String (List SearchResult)) (thr : ℚ)
    (state : GraphState) : GraphState :=
  let intent := state.intent.getD .doubt_clarification
  match search_outcome with
  | .ok search_results =>
      let n_results := RETRIEVAL_COUNTS intent
      let filtered_results :=
        filter_and_rank_results search_results intent state.user_id n_results thr
      let retrieved_docs := format_retrieved_documents filtered_results
      let context := build_context retrieved_docs
      let doc_types := (retrieved_docs.map (·.document_type)).dedup
      { state with
          retrieved_documents := retrieved_docs
          context := context
          document_types_available := doc_types
          retrieval_query := enhance_query state.query intent
          nodes_visited := state.nodes_visited ++ ["document_retriever"] }
  | .error _ =>
      { state with
          retrieved_documents := []
          context := ""
          document_types_available := []
          nodes_visited := state.nodes_visited ++ ["document_retriever"] }

namespace DoubtResolver

/-- Embeds `DoubtResolver._check_relevance`: at least 2 retrieved documents with
`similarity_score >= 0.7` (with the early `False` on an empty list). -/
def check_relevance (retrieved_docs : List RetrievedDocument) : Bool :=
  if retrieved_docs.isEmpty then false
  else
    let relevant_count :=
      retrieved_docs.countP fun d => decide ((7 : ℚ) / 10 ≤ d.similarity_score)
    decide (2 ≤ relevant_count)

/-- Embeds `DoubtResolver._format_response` (the third source parameter
`has_relevant_notes` is never consulted by the body, which branches on
`source_type` alone; it is kept to mirror the signature). -/
def format_response (answer source_type : String) (_has_relevant_notes : Bool) : String :=
  if source_type = "notes" then
    "## Answer (Based on Your Notes)\n\n" ++ answer ++
      "\n\n---\n📚 *This answer is based on your uploaded notes.*"
  else
    "## Answer\n\n" ++ answer ++
      "\n\n---\n⚠️ *This answer is based on general knowledge as your uploaded notes don\x27t contain sufficient information on this topic. Please verify with your study materials.*"

/-- Embeds `DoubtResolver.resolve`, with the two external LLM generations passed in
as the texts they would return (`_answer_from_notes` / `
_answer_from_general_knowledge` strip the generation before returning it). -/
def resolve (notes_answer general_answer : String) (state : GraphState) : GraphState :=
  let has_relevant_notes := check_relevance state.retrieved_documents
  let answer_source :=
    if has_relevant_notes then (notes_answer.trim, "notes")
    else (general_answer.trim, "general_knowledge")
  let formatted_response :=
    format_response answer_source.1 answer_source.2 has_relevant_notes
  { state with
      final_response := some formatted_response
      task_data_source_type := some answer_source.2
      task_data_has_relevant_notes := some has_relevant_notes
      nodes_visited := state.nodes_visited ++ ["doubt_resolver"] }

end DoubtResolver

/-- The error taxonomy of the pipeline (spec section 7; the source surfaces
these as exceptions, e.g. `WorkflowNodeException`). -/
inductive PipelineError
  | classificationError (msg : String)
  | unsupportedIntent
  | generationError (node msg : String)
deriving DecidableEq, Repr

/-- Modelled from the spec: the intent-classification stage
(`app/nodes/intent_classifier.py`, not among the provided sources).  Entering
the stage appends its name `"classify_intent"`; a classification failure is a
terminal pipeline failure. -/
def classify_intent_node (outcome : Except String Intent) (state : GraphState) :
    Except PipelineError GraphState :=
  match outcome with
  | .error msg => .error (.classificationError msg)
  | .ok intent =>
      .ok { state with
              intent := some intent
              nodes_visited := state.nodes_visited ++ ["classify_intent"] }

/-- Modelled from the spec: the answer-generation executor
(`app/nodes/answer_generator.py`, not among the provided sources).  Appends
its stage name `"generate_answer"`; an LLM failure is fatal. -/
def generate_answer_node (gen : Except String String) (state : GraphState) :
    Except PipelineError GraphState :=
  match gen with
  | .error msg => .error (.generationError "generate_answer" msg)
  | .ok answer =>
      .ok { state with
              generated_answer := some answer
              nodes_visited := state.nodes_visited ++ ["generate_answer"] }

/-- Modelled from the spec: the answer-evaluation executor
(`app/nodes/answer_evaluator.py`, not among the provided sources). -/
def evaluate_answer_node (gen : Except String String) (state : GraphState) :
    Except PipelineError GraphState :=
  match gen with
  | .error msg => .error (.generationError "evaluate_answer" msg)
  | .ok answer =>
      .ok { state with
              final_response := some answer
              nodes_visited := state.nodes_visited ++ ["evaluate_answer"] }

/-- Modelled from the spec: the question-generation executor
(`app/nodes/question_generator.py`, not among the provided sources). -/
def generate_questions_node (gen : Except String String) (state : GraphState) :
    Except PipelineError GraphState :=
  match gen with
  | .error msg => .error (.generationError "generate_questions" msg)
  | .ok answer =>
      .ok { state with
              final_response := some answer
              nodes_visited := state.nodes_visited ++ ["generate_questions"] }

/-- The doubt-clarification executor wrapping `DoubtResolver.resolve`: an LLM
failure raises `WorkflowNodeException` (fatal); on success the generated text
is the answer for whichever path the resolver takes. -/
def resolve_doubt_node (gen : Except String String) (state : GraphState) :
    Except PipelineError GraphState :=
  match gen with
  | .error msg => .error (.generationError "doubt_resolver" msg)
  | .ok answer => .ok (DoubtResolver.resolve answer answer state)

/-- The executor stage name each bound intent's task node appends to the
trace (`EXAM_PAPER_GENERATION` has no bound executor). -/
def executor_stage : Intent → Option String
  | .answer_generation => some "generate_answer"
  | .answer_evaluation => some "evaluate_answer"
  | .doubt_clarification => some "doubt_resolver"
  | .question_generation => some "generate_questions"
  | .exam_paper_generation => none

/-- One pipeline run: `WorkflowOrchestrator._build_graph` wiring.  The routing
after classification and after retrieval follows `app/nodes/router.py`, which
is not among the provided sources and is modelled from the spec (section 4.3):
every classified intent proceeds to retrieval; after retrieval a 1:1 mapping
dispatches to the bound executor, and `EXAM_PAPER_GENERATION`, having no bound
executor, terminates with an explicit unsupported-intent failure.  The three
external capabilities (classifier, vector search, LLM generation) enter as
their outcomes. -/
def run_workflow (classify_outcome : Except String Intent)
    (search_outcome : Except String (List SearchResult))
    (gen_outcome : Except String String) (thr : ℚ)
    (state : GraphState) : Except PipelineError GraphState :=
  match classify_intent_node classify_outcome state with
  | .error e => .error e
  | .ok st1 =>
      let st2 := retrieve search_outcome thr st1
      match st1.intent.getD .doubt_clarification with
      | .answer_generation => generate_answer_node gen_outcome st2
      | .answer_evaluation => evaluate_answer_node gen_outcome st2
      | .doubt_clarification => resolve_doubt_node gen_outcome st2
      | .question_generation => generate_questions_node gen_outcome st2
      | .exam_paper_generation => .error .unsupportedIntent

/-- The `metadata` sub-dictionary of `WorkflowOrchestrator._build_response`. -/
structure ResponseMetadata where
  user_id : Int
  conversation_id : Option Int
  document_types_used : List String
  num_documents_retrieved : Nat
  context_length : Option Nat
deriving DecidableEq, Repr

/-- The success envelope built by `WorkflowOrchestrator._build_response`
(`success` is always `True` there; intent-specific payload fields are present
when the state carries them). -/
structure SuccessEnvelope where
  intent : String
  processing_time : ℚ
  nodes_visited : List String
  metadata : ResponseMetadata
  answer : Option String
  response : Option String
deriving DecidableEq, Repr

/-- The value returned by `WorkflowOrchestrator.process_query`: either the
success envelope of `_build_response` or the error dictionary built in the
`except` branch. -/
inductive ProcessQueryResult
  | success (env : SuccessEnvelope)
  | failure (error : String) (error_type : String) (processing_time : ℚ)
      (user_id : Int) (query : String)
deriving DecidableEq, Repr

/-- The reported processing time of either envelope. -/
def ProcessQueryResult.processing_time : ProcessQueryResult → ℚ
  | .success env => env.processing_time
  | .failure _ _ t _ _ => t

/-- The `success` field of either envelope. -/
def ProcessQueryResult.success_flag : ProcessQueryResult → Bool
  | .success _ => true
  | .failure _ _ _ _ _ => false

/-- Message `str(e)` for a pipeline error. -/
def PipelineError.message : PipelineError → String
  | .classificationError msg => msg
  | .unsupportedIntent => "unsupported intent"
  | .generationError _ msg => msg

/-- Name `type(e).__name__` for a pipeline error. -/
def PipelineError.type_name : PipelineError → String
  | .classificationError _ => "ClassificationError"
  | .unsupportedIntent => "UnsupportedIntent"
  | .generationError _ _ => "WorkflowNodeException"

/-- Embeds `Intent.value`, the wire name of an intent. -/
def Intent.value : Intent → String
  | .answer_generation => "answer_generation"
  | .answer_evaluation => "answer_evaluation"
  | .doubt_clarification => "doubt_clarification"
  | .question_generation => "question_generation"
  | .exam_paper_generation => "exam_paper_generation"

/-- Embeds `WorkflowOrchestrator._build_response`. -/
def build_response (state : GraphState) : ProcessQueryResult :=
  .success
    { intent := (state.intent.map Intent.value).getD "unknown"
      processing_time := state.processing_time
      nodes_visited := state.nodes_visited
      metadata :=
        { user_id := state.user_id
          conversation_id := state.conversation_id
          document_types_used := state.document_types_available
          num_documents_retrieved := state.retrieved_documents.length
          context_length :=
            if state.context ≠ "" then some state.context.length else none }
      answer := state.generated_answer
      response := state.final_response }

/-- Embeds `WorkflowOrchestrator.process_query`: run the graph; on success stamp the
elapsed time into the state and build the success envelope; on any exception
from a stage, catch it and return the error dictionary carrying the elapsed
time measured from the same start instant.  The workflow outcome and the two
clock readings (monotonic start and end timestamps) are passed in. -/
def process_query (user_id : Int) (query : String)
    (outcome : Except PipelineError GraphState)
    (start_time end_time : ℚ) : ProcessQueryResult :=
  match outcome with
  | .ok final_state =>
      build_response
        { final_state with
            processing_time := end_time - start_time
            status := .completed }
  | .error e =>
      .failure e.message e.type_name (end_time - start_time) user_id query

/-- One persisted chat message row as read by the streaming endpoint
(`SELECT role, content FROM messages ...`). -/
structure StoredMessage where
  role : String
  content : String
deriving DecidableEq, Repr

/-- History fetch of `stream_query.event_generator`: `ORDER BY id DESC
LIMIT 10` followed by `[::-1]` — the last 10 persisted messages of the
conversation, in chronological order. -/
def fetch_history (persisted : List StoredMessage) : List StoredMessage :=
  (persisted.reverse.take 10).reverse

/-- The context-injection template wrapped around the query when retrieval
produced a non-empty context (`final_query` in `chat.py`). -/
def stream_context_template (context query : String) : String :=
  "Context information is below.\n---------------------\n" ++ context ++
    "\n---------------------\nGiven the context information and not prior knowledge, answer the query.\nQuery: " ++ query

/-- The history trim of `stream_query.event_generator`: if the most recent
fetched row's content is the current query (the endpoint persisted the user
message just before assembling), drop that row. -/
def trim_history (history_rows : List StoredMessage) (query : String) :
    List StoredMessage :=
  match history_rows.getLast? with
  | some m => if m.content = query then history_rows.dropLast else history_rows
  | none => history_rows

/-- Message-list assembly of `stream_query.event_generator`: system prompt
(notes variant when context is non-empty, general variant otherwise), then the
trimmed history, then the current user message (query wrapped in the context
template exactly when context is non-empty). -/
def assemble_messages (persisted : List StoredMessage)
    (query context sys_notes sys_general : String) : List StoredMessage :=
  let history_rows := fetch_history persisted
  let system_text := if context ≠ "" then sys_notes else sys_general
  let final_query :=
    if context ≠ "" then stream_context_template context query else query
  let trimmed := trim_history history_rows query
  ⟨"system", system_text⟩ :: trimmed ++ [⟨"user", final_query⟩]

/-! Concrete sample data used to instantiate the theorems below. -/

/-- A public chunk owned by user 2. -/
def sample_public_hit : SearchResult :=
  { metadata := { user_id := some 2, visibility := some "public",
                  document_type := some "notes", document_id := some 5 }
    document := "public notes text"
    similarity := 8 / 10 }

/-- A private chunk owned by user 2 (invisible to user 1). -/
def sample_private_hit : SearchResult :=
  { metadata := { user_id := some 2, visibility := some "private",
                  document_type := some "notes", document_id := some 6 }
    document := "private notes text"
    similarity := 9 / 10 }

/-- A chunk owned by user 1 of a type outside every priority list. -/
def sample_own_hit : SearchResult :=
  { metadata := { user_id := some 1, visibility := some "private",
                  document_type := some "question_paper", document_id := some 7 }
    document := "own question paper text"
    similarity := 75 / 100 }

/-- A retrieved document with the given similarity, for doubt-resolver tests. -/
def sample_doc (q : ℚ) : RetrievedDocument :=
  { document_id := 1
    document_type := "notes"
    chunk_text := "chunk"
    similarity_score := q
    metadata := { user_id := some 1, visibility := some "public",
                  document_type := some "notes", document_id := some 1 } }

/-- The final state of a sample successful ANSWER_GENERATION run over an
empty corpus, used to instantiate the trace theorems on a concrete run. -/
def c5_sample_state : GraphState :=
  { create_initial_state 1 "q" none with
      intent := some .answer_generation
      retrieval_query := enhance_query "q" .answer_generation
      nodes_visited := ["classify_intent", "document_retriever", "generate_answer"]
      generated_answer := some "ans" }

/-! Theorems. -/

/-- Characterisation of membership in the scoring/filtering loop: a scored
pair occurs exactly for raw hits of the input that pass the access check and
whose boosted score reaches the threshold. -/
theorem mem_score_results {intent : Intent} {user_id : Int} {thr : ℚ}
    {rs : List SearchResult} {p : SearchResult × ℚ} :
    p ∈ score_results intent user_id thr rs ↔
      p.1 ∈ rs ∧ access_denied user_id p.1 = false ∧
        thr ≤ boosted_score intent p.1 ∧ p.2 = boosted_score intent p.1 := by
  obtain ⟨r, s⟩ := p
  simp only [score_results, List.mem_filterMap]
  constructor
  · rintro ⟨a, ha, hf⟩
    by_cases hd : access_denied user_id a
    · simp [hd] at hf
    · by_cases ht : thr ≤ boosted_score intent a
      · simp [hd, ht] at hf
        obtain ⟨rfl, rfl⟩ := hf
        exact ⟨ha, by simpa using hd, ht, rfl⟩
      · simp [hd, ht] at hf
  · rintro ⟨hmem, hacc, hthr, rfl⟩
    exact ⟨r, hmem, by simp [hacc, hthr]⟩

/-- Every element of the ranked output is an input hit that passed the access
check and the (post-boost) threshold check. -/
theorem mem_filter_and_rank {search_results : List SearchResult} {intent : Intent}
    {user_id : Int} {n_results : Nat} {thr : ℚ} {r : SearchResult}
    (h : r ∈ filter_and_rank_results search_results intent user_id n_results thr) :
    r ∈ search_results ∧ access_denied user_id r = false ∧
      thr ≤ boosted_score intent r := by
  unfold filter_and_rank_results at h
  split at h
  · simp at h
  · obtain ⟨p, hp, rfl⟩ := List.mem_map.mp h
    have h1 : p ∈ (score_results intent user_id thr search_results).insertionSort score_ge :=
      List.mem_of_mem_take hp
    have h2 : p ∈ score_results intent user_id thr search_results :=
      (List.mem_insertionSort score_ge).mp h1
    have h3 := mem_score_results.mp h2
    exact ⟨h3.1, h3.2.1, h3.2.2.1⟩

/-- C1: a raw hit whose metadata owner differs from the requesting user and
whose visibility is not `"public"` never appears in the output of the
retrieval scoring operation, for every input list, intent, limit and
threshold. -/
theorem c1_access_filter_absolute (search_results : List SearchResult)
    (intent : Intent) (user_id : Int) (n_results : Nat) (thr : ℚ)
    (r : SearchResult)
    (howner : r.metadata.user_id ≠ some user_id)
    (hvis : r.metadata.visibility ≠ some "public") :
    r ∉ filter_and_rank_results search_results intent user_id n_results thr := by
  intro hmem
  have hacc := (mem_filter_and_rank hmem).2.1
  have : access_denied user_id r = true := by
    simp [access_denied, bne_iff_ne, howner, hvis]
  rw [this] at hacc
  exact absurd hacc (by simp)

theorem c1_access_filter_absolute_witness :
    sample_private_hit.metadata.user_id ≠ some 1 ∧
      sample_private_hit.metadata.visibility ≠ some "public" ∧
      sample_private_hit ∉
        filter_and_rank_results [sample_private_hit, sample_public_hit]
          .doubt_clarification 1 8 SIMILARITY_THRESHOLD :=
  ⟨by decide, by decide,
    c1_access_filter_absolute _ _ _ _ _ _ (by decide) (by decide)⟩

/-- C2: the default similarity threshold is 0.7; for every access-permitted
hit the score is the similarity plus a boost of `(L - i) * 0.1` when the
hit's document type sits at 0-based position `i` of the intent's priority
list of length `L` (no boost when absent); and the hit survives the
threshold filter — i.e. it is kept, with that score, by the scoring loop —
if and only if the boosted score is at least the threshold. -/
theorem c2_boost_and_threshold (intent : Intent) (user_id : Int) (thr : ℚ)
    (rs : List SearchResult) (r : SearchResult)
    (hmem : r ∈ rs) (hacc : access_denied user_id r = false) :
    SIMILARITY_THRESHOLD = 7 / 10 ∧
      (∀ i : ℕ,
        (DOCUMENT_TYPE_PRIORITIES intent).indexOf? (doc_type_of r) = some i →
          boosted_score intent r =
            r.similarity +
              (((DOCUMENT_TYPE_PRIORITIES intent).length - i : ℕ) : ℚ) * (1 / 10)) ∧
      ((DOCUMENT_TYPE_PRIORITIES intent).indexOf? (doc_type_of r) = none →
        boosted_score intent r = r.similarity) ∧
      ((r, boosted_score intent r) ∈ score_results intent user_id thr rs ↔
        thr ≤ boosted_score intent r) := by
  refine ⟨rfl, ?_, ?_, ?_⟩
  · intro i hi
    by_cases hm : doc_type_of r ∈ DOCUMENT_TYPE_PRIORITIES intent
    · have hidx : (DOCUMENT_TYPE_PRIORITIES intent).indexOf (doc_type_of r) = i := by
        rw [List.indexOf_eq_indexOf?, hi]
      rw [boosted_score]
      simp only [hm, if_true, hidx]
    · exfalso
      have : (DOCUMENT_TYPE_PRIORITIES intent).indexOf? (doc_type_of r) = none :=
        List.indexOf?_eq_none_iff.mpr fun x hx hbeq =>
          hm (eq_of_beq hbeq ▸ hx)
      rw [this] at hi
      exact Option.noConfusion hi
  · intro hnone
    have hm : doc_type_of r ∉ DOCUMENT_TYPE_PRIORITIES intent := fun hmem' => by
      have := List.indexOf?_eq_none_iff.mp hnone _ hmem'
      simp at this
    rw [boosted_score]
    simp only [hm, if_false]
  · rw [mem_score_results]
    simp [hmem, hacc]

theorem c2_boost_and_threshold_witness :
    sample_public_hit ∈ [sample_private_hit, sample_public_hit] ∧
      access_denied 1 sample_public_hit = false ∧
      (SIMILARITY_THRESHOLD = 7 / 10 ∧
        (∀ i : ℕ,
          (DOCUMENT_TYPE_PRIORITIES .doubt_clarification).indexOf?
              (doc_type_of sample_public_hit) = some i →
            boosted_score .doubt_clarification sample_public_hit =
              sample_public_hit.similarity +
                (((DOCUMENT_TYPE_PRIORITIES .doubt_clarification).length - i : ℕ) : ℚ) *
                  (1 / 10)) ∧
        ((DOCUMENT_TYPE_PRIORITIES .doubt_clarification).indexOf?
            (doc_type_of sample_public_hit) = none →
          boosted_score .doubt_clarification sample_public_hit =
            sample_public_hit.similarity) ∧
        ((sample_public_hit, boosted_score .doubt_clarification sample_public_hit) ∈
            score_results .doubt_clarification 1 SIMILARITY_THRESHOLD
              [sample_private_hit, sample_public_hit] ↔
          SIMILARITY_THRESHOLD ≤
            boosted_score .doubt_clarification sample_public_hit)) :=
  ⟨List.mem_cons_of_mem _ (List.mem_cons_self _ _), by decide,
    c2_boost_and_threshold .doubt_clarification 1 SIMILARITY_THRESHOLD
      [sample_private_hit, sample_public_hit] sample_public_hit
      (List.mem_cons_of_mem _ (List.mem_cons_self _ _)) (by decide)⟩

/-- Stability of the descending sort: the subsequence of entries carrying any
fixed score is unchanged by the sort, i.e. ties keep their original order. -/
theorem insertionSort_score_filter_eq (l : List (SearchResult × ℚ)) (s : ℚ) :
    (l.insertionSort score_ge).filter (fun p => decide (p.2 = s)) =
      l.filter (fun p => decide (p.2 = s)) := by
  set p : SearchResult × ℚ → Bool := fun x => decide (x.2 = s) with hp
  have hc : ∀ x ∈ l.filter p, x.2 = s := fun x hx =>
    of_decide_eq_true (List.mem_filter.mp hx).2
  have hpair : (l.filter p).Pairwise score_ge :=
    List.pairwise_of_forall_mem_list fun a ha b hb => by
      show b.2 ≤ a.2
      rw [hc a ha, hc b hb]
  have hsub : List.Sublist (l.filter p) (l.insertionSort score_ge) :=
    List.sublist_insertionSort hpair (List.filter_sublist l)
  have hself : (l.filter p).filter p = l.filter p :=
    List.filter_eq_self.mpr fun a ha => (List.mem_filter.mp ha).2
  have hsub2 : List.Sublist (l.filter p) ((l.insertionSort score_ge).filter p) := by
    have := hsub.filter p
    rwa [hself] at this
  have hperm : List.Perm ((l.insertionSort score_ge).filter p) (l.filter p) :=
    (List.perm_insertionSort score_ge l).filter p
  exact (hsub2.eq_of_length hperm.length_eq.symm).symm

/-- Every scored pair carries the boosted score of its hit. -/
theorem score_eq_boosted {intent : Intent} {user_id : Int} {thr : ℚ}
    {rs : List SearchResult} {p : SearchResult × ℚ}
    (h : p ∈ score_results intent user_id thr rs) :
    p.2 = boosted_score intent p.1 :=
  (mem_score_results.mp h).2.2.2

/-- C3: the ranked output never exceeds the requested limit, is ordered by
boosted score descending, and the sort is stable — entries of equal score
stay in original search order — for every input, intent and limit. -/
theorem c3_capped_sorted_stable (search_results : List SearchResult)
    (intent : Intent) (user_id : Int) (n_results : Nat) (thr : ℚ) :
    (filter_and_rank_results search_results intent user_id n_results thr).length
        ≤ n_results ∧
      List.Sorted (fun a b => boosted_score intent b ≤ boosted_score intent a)
        (filter_and_rank_results search_results intent user_id n_results thr) ∧
      (∀ s : ℚ,
        ((score_results intent user_id thr search_results).insertionSort
            score_ge).filter (fun p => decide (p.2 = s)) =
          (score_results intent user_id thr search_results).filter
            (fun p => decide (p.2 = s))) := by
  refine ⟨?_, ?_, fun s => insertionSort_score_filter_eq _ s⟩
  · unfold filter_and_rank_results
    split
    · simp
    · rw [List.length_map]
      exact (List.length_take _ _).le.trans (min_le_left _ _)
  · unfold filter_and_rank_results
    split
    · simp
    · have hsorted :
        List.Sorted score_ge
          ((score_results intent user_id thr search_results).insertionSort score_ge) :=
        List.sorted_insertionSort score_ge _
      have htake :
          List.Sorted score_ge
            (((score_results intent user_id thr search_results).insertionSort
                score_ge).take n_results) :=
        List.Pairwise.sublist (List.take_sublist _ _) hsorted
      rw [List.Sorted, List.pairwise_map]
      refine List.Pairwise.imp_of_mem ?_ htake
      intro a b ha hb hab
      have ha' : a ∈ score_results intent user_id thr search_results :=
        (List.mem_insertionSort score_ge).mp (List.mem_of_mem_take ha)
      have hb' : b ∈ score_results intent user_id thr search_results :=
        (List.mem_insertionSort score_ge).mp (List.mem_of_mem_take hb)
      have := hab
      rw [score_ge, score_eq_boosted ha', score_eq_boosted hb'] at this
      exact this

/-- C4: after formatting, every retrieved document reports its hit's original
similarity as `similarity_score`; the boosted ranking score never leaks into
the formatted output. -/
theorem c4_similarity_not_boosted (search_results : List SearchResult)
    (intent : Intent) (user_id : Int) (n_results : Nat) (thr : ℚ) :
    (format_retrieved_documents
        (filter_and_rank_results search_results intent user_id n_results thr)).map
        (·.similarity_score) =
      (filter_and_rank_results search_results intent user_id n_results thr).map
        (·.similarity) := by
  rw [format_retrieved_documents, List.map_map]
  rfl

/-- C5 counterexample: a concrete ANSWER_GENERATION query completes the
pipeline successfully, but its trace is
`["classify_intent", "document_retriever", "generate_answer"]` — the
retrieval node appends `"document_retriever"`, not `"retrieve_documents"`,
so the trace claimed by the spec does not occur. -/
theorem c5_trace_counterexample :
    run_workflow (.ok .answer_generation) (.ok []) (.ok "ans")
        SIMILARITY_THRESHOLD (create_initial_state 1 "q" none) =
      .ok c5_sample_state ∧
      c5_sample_state.nodes_visited ≠
        ["classify_intent", "retrieve_documents", "generate_answer"] := by
  constructor
  · simp [run_workflow, classify_intent_node, retrieve, generate_answer_node,
      create_initial_state, c5_sample_state, filter_and_rank_results,
      format_retrieved_documents, build_context, enhance_query]
  · simp [c5_sample_state, create_initial_state]

/-- C5 (amended): every ANSWER_GENERATION query that completes the pipeline
successfully has the trace
`["classify_intent", "document_retriever", "generate_answer"]`, in that order
and with no other elements. -/
theorem c5_trace_invariant (search_outcome : Except String (List SearchResult))
    (gen_answer : String) (thr : ℚ) (user_id : Int) (query : String)
    (conversation_id : Option Int) (st : GraphState)
    (h : run_workflow (.ok .answer_generation) search_outcome (.ok gen_answer) thr
        (create_initial_state user_id query conversation_id) = .ok st) :
    st.nodes_visited = ["classify_intent", "document_retriever", "generate_answer"] := by
  cases search_outcome with
  | ok results =>
      simp only [run_workflow, classify_intent_node, retrieve,
        generate_answer_node, Option.getD_some, Except.ok.injEq] at h
      rw [← h]
      simp [create_initial_state]
  | error e =>
      simp only [run_workflow, classify_intent_node, retrieve,
        generate_answer_node, Option.getD_some, Except.ok.injEq] at h
      rw [← h]
      simp [create_initial_state]

theorem c5_trace_invariant_witness :
    run_workflow (.ok .answer_generation) (.ok []) (.ok "ans")
        SIMILARITY_THRESHOLD (create_initial_state 1 "q" none) =
      .ok c5_sample_state ∧
      c5_sample_state.nodes_visited =
        ["classify_intent", "document_retriever", "generate_answer"] := by
  have hrun : run_workflow (.ok .answer_generation) (.ok []) (.ok "ans")
      SIMILARITY_THRESHOLD (create_initial_state 1 "q" none) = .ok c5_sample_state := by
    simp [run_workflow, classify_intent_node, retrieve, generate_answer_node,
      create_initial_state, c5_sample_state, filter_and_rank_results,
      format_retrieved_documents, build_context, enhance_query]
  exact ⟨hrun, c5_trace_invariant (.ok []) "ans" SIMILARITY_THRESHOLD 1 "q" none
    c5_sample_state hrun⟩

/-- C6: when the search capability fails during retrieval, the retrieval node
recovers: empty retrieved documents, empty context, the stage still appended
to the trace; and the pipeline still proceeds to the bound task executor and
completes. -/
theorem c6_search_failure_degrades (e : String) (thr : ℚ) (st : GraphState)
    (gen_answer : String) (intent : Intent) (user_id : Int) (query : String)
    (conversation_id : Option Int) (stage : String)
    (hstage : executor_stage intent = some stage) :
    retrieve (.error e) thr st =
      { st with
          retrieved_documents := []
          context := ""
          document_types_available := []
          nodes_visited := st.nodes_visited ++ ["document_retriever"] } ∧
      ∃ final, run_workflow (.ok intent) (.error e) (.ok gen_answer) thr
          (create_initial_state user_id query conversation_id) = .ok final ∧
        final.retrieved_documents = [] ∧ final.context = "" ∧
        final.nodes_visited = ["classify_intent", "document_retriever", stage] := by
  refine ⟨rfl, ?_⟩
  cases intent with
  | answer_generation =>
      injection hstage with hstage
      subst hstage
      exact ⟨_, rfl, by simp [run_workflow, classify_intent_node, retrieve,
        generate_answer_node, create_initial_state], by simp [run_workflow,
        classify_intent_node, retrieve, generate_answer_node,
        create_initial_state], by simp [run_workflow, classify_intent_node,
        retrieve, generate_answer_node, create_initial_state]⟩
  | answer_evaluation =>
      injection hstage with hstage
      subst hstage
      exact ⟨_, rfl, by simp [run_workflow, classify_intent_node, retrieve,
        evaluate_answer_node, create_initial_state], by simp [run_workflow,
        classify_intent_node, retrieve, evaluate_answer_node,
        create_initial_state], by simp [run_workflow, classify_intent_node,
        retrieve, evaluate_answer_node, create_initial_state]⟩
  | doubt_clarification =>
      injection hstage with hstage
      subst hstage
      exact ⟨_, rfl, by simp [run_workflow, classify_intent_node, retrieve,
        resolve_doubt_node, DoubtResolver.resolve, DoubtResolver.check_relevance,
        create_initial_state], by simp [run_workflow, classify_intent_node,
        retrieve, resolve_doubt_node, DoubtResolver.resolve,
        DoubtResolver.check_relevance, create_initial_state], by
        simp [run_workflow, classify_intent_node, retrieve, resolve_doubt_node,
          DoubtResolver.resolve, DoubtResolver.check_relevance,
          create_initial_state]⟩
  | question_generation =>
      injection hstage with hstage
      subst hstage
      exact ⟨_, rfl, by simp [run_workflow, classify_intent_node, retrieve,
        generate_questions_node, create_initial_state], by simp [run_workflow,
        classify_intent_node, retrieve, generate_questions_node,
        create_initial_state], by simp [run_workflow, classify_intent_node,
        retrieve, generate_questions_node, create_initial_state]⟩
  | exam_paper_generation =>
      simp [executor_stage] at hstage

theorem c6_search_failure_degrades_witness :
    executor_stage .doubt_clarification = some "doubt_resolver" ∧
      (retrieve (.error "timeout") SIMILARITY_THRESHOLD
          (create_initial_state 1 "q" none) =
        { create_initial_state 1 "q" none with
            retrieved_documents := []
            context := ""
            document_types_available := []
            nodes_visited :=
              (create_initial_state 1 "q" none).nodes_visited ++
                ["document_retriever"] } ∧
        ∃ final, run_workflow (.ok .doubt_clarification) (.error "timeout")
            (.ok "ans") SIMILARITY_THRESHOLD (create_initial_state 1 "q" none) =
            .ok final ∧
          final.retrieved_documents = [] ∧ final.context = "" ∧
          final.nodes_visited =
            ["classify_intent", "document_retriever", "doubt_resolver"]) :=
  ⟨rfl, c6_search_failure_degrades "timeout" SIMILARITY_THRESHOLD
    (create_initial_state 1 "q" none) "ans" .doubt_clarification 1 "q" none
    "doubt_resolver" rfl⟩

/-- C7: an EXAM_PAPER_GENERATION query terminates with the explicit
unsupported-intent failure, a signal distinct from a classification failure,
for every search outcome, generation outcome and starting state. -/
theorem c7_exam_paper_unsupported (search_outcome : Except String (List SearchResult))
    (gen_outcome : Except String String) (thr : ℚ) (st : GraphState) :
    run_workflow (.ok .exam_paper_generation) search_outcome gen_outcome thr st =
        .error .unsupportedIntent ∧
      ∀ msg, (PipelineError.unsupportedIntent ≠ PipelineError.classificationError msg) := by
  refine ⟨rfl, fun msg h => ?_⟩
  exact PipelineError.noConfusion h

/-- C8: the orchestrator converts every stage failure into a structured
failure envelope carrying the elapsed time measured from pipeline start, and
`process_query` is a total function of the workflow outcome — it returns an
envelope (success or failure) in every case, never propagating the error. -/
theorem c8_orchestrator_failure_envelope (user_id : Int) (query : String)
    (outcome : Except PipelineError GraphState) (start_time end_time : ℚ) :
    (process_query user_id query outcome start_time end_time).processing_time =
        end_time - start_time ∧
      (∀ e, process_query user_id query (.error e) start_time end_time =
        .failure e.message e.type_name (end_time - start_time) user_id query) ∧
      (∀ e, (process_query user_id query (.error e) start_time
          end_time).success_flag = false) := by
  refine ⟨?_, fun e => rfl, fun e => rfl⟩
  cases outcome with
  | ok st => rfl
  | error e => rfl

/-- The fetched history is a suffix of the persisted conversation. -/
theorem fetch_history_suffix (persisted : List StoredMessage) :
    (persisted.reverse.drop 10).reverse ++ fetch_history persisted = persisted := by
  rw [fetch_history, ← List.reverse_append, List.take_append_drop, List.reverse_reverse]

/-- The fetched history holds at most 10 messages. -/
theorem fetch_history_length_le (persisted : List StoredMessage) :
    (fetch_history persisted).length ≤ 10 := by
  rw [fetch_history, List.length_reverse, List.length_take]
  exact min_le_left _ _

/-- The most recent fetched row is the most recently persisted message. -/
theorem fetch_history_getLast? (persisted : List StoredMessage)
    (h : persisted ≠ []) :
    (fetch_history persisted).getLast? = persisted.getLast? := by
  rw [fetch_history]
  cases hrev : persisted.reverse with
  | nil =>
      exact absurd (by simpa using congrArg List.reverse hrev) h
  | cons a t =>
      rw [List.take_succ_cons, List.getLast?_reverse, ← List.head?_reverse, hrev]
      rfl

/-- C9: the assembled history is at most the last 10 persisted messages in
chronological order; when the most recently persisted message's content is
the current query, that message is excluded from the history, so that — in a
session whose only persisted occurrence of the query text is that last
message — the assembled message list contains the current user message
exactly once. -/
theorem c9_stream_history (persisted : List StoredMessage)
    (query context sys_notes sys_general : String) :
    (trim_history (fetch_history persisted) query).length ≤ 10 ∧
      List.Sublist (trim_history (fetch_history persisted) query) persisted ∧
      (∀ m, persisted.getLast? = some m → m.content = query →
        trim_history (fetch_history persisted) query =
          (fetch_history persisted).dropLast) ∧
      (∀ m, persisted.getLast? = some m → m.content = query → context = "" →
        sys_general ≠ query →
        (∀ x ∈ (fetch_history persisted).dropLast, x.content ≠ query) →
        ((assemble_messages persisted query context sys_notes sys_general).filter
            (fun msg => decide (msg.content = query))).length = 1) := by
  have htrim_sub : List.Sublist (trim_history (fetch_history persisted) query)
      (fetch_history persisted) := by
    rw [trim_history]
    cases h : (fetch_history persisted).getLast? with
    | none => exact List.Sublist.refl _
    | some m =>
        by_cases hc : m.content = query
        · simp only [hc, if_pos rfl]
          exact List.dropLast_sublist _
        · simp only [if_neg hc]
          exact List.Sublist.refl _
  have hfetch_sub : List.Sublist (fetch_history persisted) persisted := by
    conv_rhs => rw [← fetch_history_suffix persisted]
    exact List.sublist_append_right _ _
  have hexclude : ∀ m, persisted.getLast? = some m → m.content = query →
      trim_history (fetch_history persisted) query =
        (fetch_history persisted).dropLast := by
    intro m hlast hcontent
    have hne : persisted ≠ [] := by
      intro hnil
      rw [hnil] at hlast
      exact Option.noConfusion hlast
    rw [trim_history, fetch_history_getLast? persisted hne, hlast]
    simp [hcontent]
  refine ⟨?_, htrim_sub.trans hfetch_sub, hexclude, ?_⟩
  · calc (trim_history (fetch_history persisted) query).length
        ≤ (fetch_history persisted).length := htrim_sub.length_le
      _ ≤ 10 := fetch_history_length_le persisted
  · intro m hlast hcontent hctx hsys hrest
    rw [assemble_messages]
    simp only [hctx, ne_eq, not_true_eq_false, if_false, ite_false]
    rw [hexclude m hlast hcontent]
    have h1 : (decide (sys_general = query)) = false := by
      simpa using hsys
    have h2 : ((fetch_history persisted).dropLast.filter
        (fun msg => decide (msg.content = query))) = [] :=
      List.filter_eq_nil_iff.mpr fun a ha => by simpa using hrest a ha
    simp [List.filter_cons, List.filter_append, h1, h2]

theorem c9_stream_history_witness :
    ([⟨"user", "hi"⟩, ⟨"assistant", "hello"⟩,
        (⟨"user", "q2"⟩ : StoredMessage)] : List StoredMessage).getLast? =
        some ⟨"user", "q2"⟩ ∧
      (⟨"user", "q2"⟩ : StoredMessage).content = "q2" ∧
      ("" : String) = "" ∧
      ("general sys" : String) ≠ "q2" ∧
      (∀ x ∈ (fetch_history [⟨"user", "hi"⟩, ⟨"assistant", "hello"⟩,
          ⟨"user", "q2"⟩]).dropLast, x.content ≠ "q2") ∧
      ((assemble_messages [⟨"user", "hi"⟩, ⟨"assistant", "hello"⟩, ⟨"user", "q2"⟩]
          "q2" "" "notes sys" "general sys").filter
          (fun msg => decide (msg.content = "q2"))).length = 1 :=
  ⟨by decide, by decide, rfl, by decide, by decide,
    (c9_stream_history [⟨"user", "hi"⟩, ⟨"assistant", "hello"⟩, ⟨"user", "q2"⟩]
        "q2" "" "notes sys" "general sys").2.2.2
      ⟨"user", "q2"⟩ (by decide) (by decide) rfl (by decide) (by decide)⟩

/-- The relevance check holds exactly when at least two retrieved documents
have similarity at least 0.7. -/
theorem check_relevance_iff (docs : List RetrievedDocument) :
    DoubtResolver.check_relevance docs = true ↔
      2 ≤ docs.countP (fun d => decide ((7 : ℚ) / 10 ≤ d.similarity_score)) := by
  cases docs with
  | nil => simp [DoubtResolver.check_relevance]
  | cons d ds => simp [DoubtResolver.check_relevance]

/-- C10: the doubt resolver takes the notes-based path exactly when at least
2 of the retrieved documents have similarity at least 0.7; otherwise it
answers from general knowledge and marks the response with the
general-knowledge disclaimer; the branch never consults the context string,
even when it is non-empty. -/
theorem c10_doubt_relevance_gate (notes_answer general_answer : String)
    (st : GraphState) (c : String) :
    ((DoubtResolver.resolve notes_answer general_answer st).task_data_source_type =
        some (if 2 ≤ st.retrieved_documents.countP
            (fun d => decide ((7 : ℚ) / 10 ≤ d.similarity_score))
          then "notes" else "general_knowledge")) ∧
      ((DoubtResolver.resolve notes_answer general_answer
            { st with context := c }).task_data_source_type =
        (DoubtResolver.resolve notes_answer general_answer st).task_data_source_type) ∧
      ((DoubtResolver.resolve notes_answer general_answer st).final_response =
        some (if 2 ≤ st.retrieved_documents.countP
            (fun d => decide ((7 : ℚ) / 10 ≤ d.similarity_score))
          then "## Answer (Based on Your Notes)\n\n" ++ notes_answer.trim ++
            "\n\n---\n📚 *This answer is based on your uploaded notes.*"
          else "## Answer\n\n" ++ general_answer.trim ++
            "\n\n---\n⚠️ *This answer is based on general knowledge as your uploaded notes don\x27t contain sufficient information on this topic. Please verify with your study materials.*")) := by
  have hbranch := check_relevance_iff st.retrieved_documents
  by_cases h : DoubtResolver.check_relevance st.retrieved_documents
  · have hcount := hbranch.mp h
    refine ⟨?_, ?_, ?_⟩
    · simp [DoubtResolver.resolve, h, hcount]
    · simp [DoubtResolver.resolve, h]
    · simp [DoubtResolver.resolve, DoubtResolver.format_response, h, hcount]
  · have hcount : ¬ 2 ≤ st.retrieved_documents.countP
        (fun d => decide ((7 : ℚ) / 10 ≤ d.similarity_score)) := fun hc =>
      h (hbranch.mpr hc)
    refine ⟨?_, ?_, ?_⟩
    · simp [DoubtResolver.resolve, h, hcount]
    · simp [DoubtResolver.resolve, h]
    · simp [DoubtResolver.resolve, DoubtResolver.format_response, h, hcount]
